import Mathlib

/-!
Verification of the data-sampling / prompt-construction / response-handling
pipeline of the Excel-analyzer application (`app2.py`).

The embedding models:
* `load_api_key` — reading and trimming the credential file, with the two
  fatal failure modes (file missing / other read error) halting the script;
* the preview `df.head()` shown after a successful parse;
* the conditional sampler `df.sample(n=500)` guarded by `len(df) > 500`,
  with the random row choice made explicit as a list of indices;
* the serialization `df_sampled.to_csv(..., index=False)` — a header line of
  column names followed by one line per row, fields escaped per the csv
  module rules (quote a field containing the delimiter, the quote character
  or the line terminator; double embedded quotes; line terminator "\n");
* the prompt string built from the fixed preamble, the CSV text, the user
  questions, and the "Findings:" trailer;
* the ChatCompletion call: the two role/content messages, the extraction of
  `response[choices][0][message][content].strip()`, and the two exception
  handlers (`except OpenAIError` then `except Exception`), including the
  import-time fallback `OpenAIError = Exception`.
-/

/-- Python whitespace characters recognised by `str.strip()`. -/
def isPySpace (c : Char) : Bool :=
  c = ' ' || c = '\t' || c = '\n' || c = '\r' || c = '\x0b' || c = '\x0c'

/-- Python `str.strip()` on a list of characters: drop leading and trailing
whitespace. -/
def pyStripList (l : List Char) : List Char :=
  ((l.dropWhile isPySpace).reverse.dropWhile isPySpace).reverse

/-- Python `str.strip()`. -/
def pyStrip (s : String) : String :=
  String.mk (pyStripList s.data)

/-- A table row: the cell values of one row, in column order. -/
abbrev Row := List String

/-- The sampling step (`app2.py` lines 83–87): if the table has more than
500 rows, take the rows at the randomly chosen positions `pick` (the random
choice of `df.sample(n=500)` made explicit); otherwise keep the table
unchanged.  The Bool is whether the sampling warning was shown. -/
def sampleRows (df : List Row) (pick : List Nat) : List Row × Bool :=
  if df.length > 500 then
    (pick.filterMap (fun i => df.get? i), true)
  else
    (df, false)

/-- The random choice backing `df.sample(n=500)`: 500 distinct in-range row
positions (selection without replacement). -/
def ValidPick (pick : List Nat) (df : List Row) : Prop :=
  pick.length = 500 ∧ pick.Nodup ∧ ∀ i ∈ pick, i < df.length

/-- Whether a CSV field must be quoted (csv module QUOTE_MINIMAL with
delimiter `,`, quote char `"` and line terminator `"\n"`). -/
def csvNeedsQuote (f : List Char) : Bool :=
  f.any (fun c => c = ',' || c = '"' || c = '\n')

/-- Double every embedded quote character of a field. -/
def csvDoubleQuotes : List Char → List Char
  | [] => []
  | c :: cs => if c = '"' then '"' :: '"' :: csvDoubleQuotes cs
               else c :: csvDoubleQuotes cs

/-- Escape one CSV field: quote it (doubling embedded quotes) when it
contains the delimiter, a quote, or a newline; otherwise write it bare. -/
def csvEscapeField (f : List Char) : List Char :=
  if csvNeedsQuote f then '"' :: (csvDoubleQuotes f ++ ['"']) else f

/-- One CSV record without its terminator: the escaped fields joined
by the delimiter. -/
def csvFields : List (List Char) → List Char
  | [] => []
  | [f] => csvEscapeField f
  | f :: fs => csvEscapeField f ++ ',' :: csvFields fs

/-- A sequence of CSV records, each terminated by `"\n"`. -/
def csvRecords : List (List (List Char)) → List Char
  | [] => []
  | r :: rs => csvFields r ++ '\n' :: csvRecords rs

/-- The serialization `df_sampled.to_csv(csv_buffer, index=False)` (`app2.py` lines 90–92):
the header line of column names followed by one line per data row. -/
def csvString (header : List String) (rows : List Row) : String :=
  String.mk (csvRecords ((header :: rows).map (fun r => r.map String.data)))

/-- The constant instruction preamble of the prompt. -/
def promptPreamble : String :=
  "You are an analytical assistant. Based on the following data and questions, provide comprehensive findings.\n\n"

/-- The prompt string (`app2.py` lines 95–100). -/
def buildPrompt (header : List String) (sampled : List Row) (questions : String) : String :=
  promptPreamble ++
    "Data:\n" ++ csvString header sampled ++ "\n\n" ++
    "Questions:\n" ++ questions ++ "\n\n" ++
    "Findings:"

/-- One chat message of the request body. -/
structure ChatMessage where
  role : String
  content : String
deriving DecidableEq, Repr

/-- The messages sent by `openai.ChatCompletion.create` (`app2.py`
lines 105–108). -/
def chatMessages (prompt : String) : List ChatMessage :=
  [{ role := "system", content := "You are a helpful assistant." },
   { role := "user", content := prompt }]

/-- The message object inside one returned choice. -/
structure ChoiceMessage where
  content : String
deriving DecidableEq, Repr

/-- One choice of the remote response. -/
structure Choice where
  message : ChoiceMessage
deriving DecidableEq, Repr

/-- The remote response body: a list of choices. -/
structure ChatResponse where
  choices : List Choice
deriving DecidableEq, Repr

/-- The exceptions that can surface from the `try` block around the
completion call: a member of the OpenAI error family carrying the remote
detail, the IndexError raised by `response[choices][0]` on an empty list,
or any other exception. -/
inductive PyExn where
  | openAIError (detail : String)
  | indexError (detail : String)
  | otherError (detail : String)
deriving DecidableEq, Repr

/-- The textual detail of an exception (what `f"{e}"` interpolates). -/
def PyExn.detail : PyExn → String
  | .openAIError d => d
  | .indexError d => d
  | .otherError d => d

/-- Whether `except OpenAIError` catches `e`.  `fallback` records the
import-time binding (`app2.py` lines 15–18): when `from openai.error import
OpenAIError` failed, `OpenAIError = Exception` and every exception is
caught by the first handler. -/
def caughtByOpenAIHandler (fallback : Bool) (e : PyExn) : Bool :=
  match e with
  | .openAIError _ => true
  | _ => fallback

/-- The outcome of one analyze action: the findings text on success, or one
of the two logged-and-surfaced error categories (`app2.py` lines 119–124). -/
inductive AnalysisOutcome where
  | findings (text : String)
  | apiError (logMsg : String) (userMsg : String)
  | unexpected (logMsg : String) (userMsg : String)
deriving DecidableEq, Repr

/-- The two `except` handlers (`app2.py` lines 119–124): classify the
exception, log it, and surface a message.  No retry happens: the handlers
just report. -/
def handleExn (fallback : Bool) (e : PyExn) : AnalysisOutcome :=
  if caughtByOpenAIHandler fallback e then
    .apiError ("OpenAI API error: " ++ e.detail)
      ("❌ OpenAI API returned an error: " ++ e.detail)
  else
    .unexpected ("Unexpected error: " ++ e.detail)
      ("❌ An unexpected error occurred: " ++ e.detail)

/-- The completion call and response handling (`app2.py` lines 103–124):
the remote call either raises an exception or returns a response; with at
least one choice the findings are the content of the first choice, stripped;
with zero choices `response[choices][0]` raises an IndexError which the
handlers classify like any other exception. -/
def analyzeCall (fallback : Bool) (callResult : Except PyExn ChatResponse) :
    AnalysisOutcome :=
  match callResult with
  | .error e => handleExn fallback e
  | .ok resp =>
    match resp.choices with
    | [] => handleExn fallback (.indexError "list index out of range")
    | c :: _ => .findings (pyStrip c.message.content)

/-- A single quote character, for building the literal error messages. -/
def squote : String := String.mk ['\x27']

/-- What reading the credential file did. -/
inductive ReadOutcome where
  | ok (contents : String)
  | notFound
  | failed (detail : String)
deriving DecidableEq, Repr

/-- The fatal startup conditions: `st.error(...)` followed by `st.stop()`. -/
inductive Halt where
  | missingCredential (msg : String)
  | credentialReadError (msg : String)
deriving DecidableEq, Repr

/-- The function `load_api_key` (`app2.py` lines 21–31): read the file and return its
stripped contents; on FileNotFoundError or any other error, show the error
and stop the script. -/
def load_api_key (read : ReadOutcome) (file_path : String) : Except Halt String :=
  match read with
  | .ok contents => .ok (pyStrip contents)
  | .notFound => .error (.missingCredential
      ("API key file " ++ squote ++ file_path ++ squote ++
        " not found. Please ensure it exists."))
  | .failed e => .error (.credentialReadError
      ("An error occurred while reading the API key file: " ++ e))

/-- The preview `df.head()` (`app2.py` line 68): the first five rows of the table. -/
def dfHead (df : List Row) : List Row :=
  df.take 5

/-- Everything one analyze button press produces (`app2.py` lines 79–124). -/
structure AnalysisView where
  sampled : List Row
  wasSampled : Bool
  prompt : String
  remoteCalls : Nat
  outcome : AnalysisOutcome
deriving Repr

/-- One analyze action: sample, serialize, build the prompt, call the
service exactly once, handle the response or the exception. -/
def runAnalysis (fallback : Bool) (header : List String) (df : List Row)
    (pick : List Nat) (questions : String)
    (callResult : Except PyExn ChatResponse) : AnalysisView :=
  let s := sampleRows df pick
  { sampled := s.1
    wasSampled := s.2
    prompt := buildPrompt header s.1 questions
    remoteCalls := 1
    outcome := analyzeCall fallback callResult }

/-- The inputs of one scripted session. -/
structure ScriptEnv where
  fallback : Bool
  credRead : ReadOutcome
  header : List String
  df : List Row
  questions : String
  pick : List Nat
  callResult : Except PyExn ChatResponse

/-- What the script produced: either it halted during credential loading
(before the upload widget, preview, or analysis existed), or it ran the
interactive part. -/
inductive ScriptOutcome where
  | halted (h : Halt)
  | ran (preview : List Row) (analysis : AnalysisView)

/-- The whole script: `load_api_key` runs first and `st.stop()` prevents
every later stage; otherwise the preview is `df.head()` and the analyze
action runs on the full uploaded table. -/
def runScript (env : ScriptEnv) : ScriptOutcome :=
  match load_api_key env.credRead "api_key.txt" with
  | .error h => .halted h
  | .ok _ =>
    .ran (dfHead env.df)
      (runAnalysis env.fallback env.header env.df env.pick env.questions
        env.callResult)

/-- The success projection of an outcome: the findings text, when the
action succeeded. -/
def AnalysisOutcome.findingsText : AnalysisOutcome → Option String
  | .findings t => some t
  | _ => none

/-- Modelled from the spec: the repository only serializes; re-parsing the
serialized Sample "as delimited text" (the round-trip property of section 8)
is not code of the repository.  This parser follows the standard
delimited-text rules named by the spec: records separated by the line
terminator, fields separated by the delimiter, a field opening with a quote
runs to the matching closing quote, and a doubled quote inside a quoted
field denotes one embedded quote character.  The mode flag is true while
inside a quoted field; `acc` is the current field, `rec` the current
record. -/
inductive CsvMode where
  | bare
  | quoted
  | afterQuote
deriving DecidableEq, Repr

/-- Measure used for termination of the parser: `afterQuote` re-examines the
current character once in `bare` mode. -/
def CsvMode.rank : CsvMode → Nat
  | .afterQuote => 1
  | _ => 0

def parseCsvAux : CsvMode → List Char → List Char → List (List Char) →
    List (List (List Char))
  | .bare, [], acc, rec => if acc = [] ∧ rec = [] then [] else [rec ++ [acc]]
  | .bare, c :: rest, acc, rec =>
      if c = ',' then parseCsvAux .bare rest [] (rec ++ [acc])
      else if c = '\n' then (rec ++ [acc]) :: parseCsvAux .bare rest [] []
      else if c = '"' ∧ acc = [] then parseCsvAux .quoted rest acc rec
      else parseCsvAux .bare rest (acc ++ [c]) rec
  | .quoted, [], acc, rec => [rec ++ [acc]]
  | .quoted, c :: rest, acc, rec =>
      if c = '"' then parseCsvAux .afterQuote rest acc rec
      else parseCsvAux .quoted rest (acc ++ [c]) rec
  | .afterQuote, [], acc, rec => parseCsvAux .bare [] acc rec
  | .afterQuote, c :: rest, acc, rec =>
      if c = '"' then parseCsvAux .quoted rest (acc ++ ['"']) rec
      else parseCsvAux .bare (c :: rest) acc rec
termination_by m cs acc rec => 2 * cs.length + m.rank
decreasing_by all_goals (simp only [CsvMode.rank, List.length_cons]; omega)

/-- Modelled from the spec: parse a whole delimited-text string into its
records of cell values. -/
def parseCsvString (s : String) : List (List String) :=
  (parseCsvAux .bare s.data [] []).map (fun r => r.map String.mk)

/-- Holds when `s` contains the given parts as substrings, in the given relative
order. -/
def containsInOrder : List Char → List (List Char) → Prop
  | _, [] => True
  | s, p :: ps => ∃ pre post, s = pre ++ p ++ post ∧ containsInOrder post ps

theorem filterMap_get_length (df : List Row) (pick : List Nat)
    (h : ∀ i ∈ pick, i < df.length) :
    (pick.filterMap (fun i => df.get? i)).length = pick.length := by
  induction pick with
  | nil => simp
  | cons a l ih =>
    have ha : a < df.length := h a (List.mem_cons_self a l)
    have ih2 := ih (fun i hi => h i (List.mem_cons_of_mem _ hi))
    rw [List.filterMap_cons, List.get?_eq_get ha]
    simpa using ih2

theorem filterMap_get_mem (df : List Row) (pick : List Nat) :
    ∀ r ∈ pick.filterMap (fun i => df.get? i), r ∈ df := by
  intro r hr
  obtain ⟨i, _, hget⟩ := List.mem_filterMap.1 hr
  exact List.get?_mem hget

/-- Claim C1: with at most 500 rows the sampler returns the table unchanged
with no sampling flag; with more than 500 rows (and the random choice being
500 distinct in-range positions, i.e. selection without replacement) it
returns exactly 500 rows, each one a row of the source table with its cell
values untouched, and sets the flag. -/
theorem sample_spec (df : List Row) (pick : List Nat)
    (hpick : df.length > 500 → ValidPick pick df) :
    (df.length ≤ 500 → sampleRows df pick = (df, false)) ∧
    (df.length > 500 →
      (sampleRows df pick).1.length = 500 ∧
      (∀ r ∈ (sampleRows df pick).1, r ∈ df) ∧
      (sampleRows df pick).2 = true) := by
  constructor
  · intro hle
    have hn : ¬ df.length > 500 := by omega
    simp [sampleRows, hn]
  · intro hgt
    obtain ⟨hlen, hnd, hbound⟩ := hpick hgt
    refine ⟨?_, ?_, ?_⟩
    · simp only [sampleRows, if_pos hgt]
      rw [filterMap_get_length df pick hbound, hlen]
    · simp only [sampleRows, if_pos hgt]
      exact filterMap_get_mem df pick
    · simp [sampleRows, hgt]

/-- The sampler facts at a concrete 501-row table with the pick 0..499. -/
theorem sample_spec_witness :
    ((List.replicate 501 (["x"] : Row)).length ≤ 500 →
        sampleRows (List.replicate 501 ["x"]) (List.range 500) =
          (List.replicate 501 ["x"], false)) ∧
    ((List.replicate 501 (["x"] : Row)).length > 500 →
      (sampleRows (List.replicate 501 ["x"]) (List.range 500)).1.length = 500 ∧
      (∀ r ∈ (sampleRows (List.replicate 501 ["x"]) (List.range 500)).1,
          r ∈ List.replicate 501 ["x"]) ∧
      (sampleRows (List.replicate 501 ["x"]) (List.range 500)).2 = true) :=
  sample_spec _ _ (fun _ => ⟨List.length_range 500, List.nodup_range 500,
    fun i hi => by
      have h2 := List.mem_range.1 hi
      simp only [List.length_replicate]
      omega⟩)

/-- Claim C10: the preview shown after a successful parse is the first five
rows of the table (N fixed at 5): its length is min 5 (row count), its
entries are exactly the first entries of the table, and the table itself is
unchanged (appending the remaining rows restores it exactly). -/
theorem head_preview_spec (df : List Row) :
    (dfHead df).length = min 5 df.length ∧
    (∀ i : Nat, (dfHead df).get? i = if i < 5 then df.get? i else none) ∧
    dfHead df ++ df.drop 5 = df := by
  refine ⟨List.length_take 5 df, ?_, List.take_append_drop 5 df⟩
  intro i
  by_cases hi : i < 5
  · rw [if_pos hi]
    exact List.get?_take hi
  · rw [if_neg hi]
    refine List.get?_eq_none.2 ?_
    have h2 : (dfHead df).length = min 5 df.length := List.length_take 5 df
    omega

/-- Claim C5: the credential loader returns the file contents with
surrounding whitespace trimmed; a missing file halts the script with the
missing-credential message before any later stage (preview, analysis)
runs; any other read error halts with the read-error message. -/
theorem load_api_key_spec (env : ScriptEnv) :
    (∀ c, env.credRead = .ok c →
        load_api_key env.credRead "api_key.txt" = .ok (pyStrip c)) ∧
    (env.credRead = .notFound →
        runScript env = .halted (.missingCredential
          ("API key file " ++ squote ++ "api_key.txt" ++ squote ++
            " not found. Please ensure it exists."))) ∧
    (∀ d, env.credRead = .failed d →
        runScript env = .halted (.credentialReadError
          ("An error occurred while reading the API key file: " ++ d))) := by
  refine ⟨?_, ?_, ?_⟩
  · intro c hc
    rw [hc]
    rfl
  · intro h
    simp [runScript, load_api_key, h]
  · intro d h
    simp [runScript, load_api_key, h]

/-- A concrete session with a missing credential file halts at once. -/
theorem load_api_key_spec_witness :
    runScript (ScriptEnv.mk false .notFound [] [] "" [] (.ok ⟨[]⟩)) =
      .halted (.missingCredential
        ("API key file " ++ squote ++ "api_key.txt" ++ squote ++
          " not found. Please ensure it exists.")) :=
  (load_api_key_spec _).2.1 rfl

/-- Claim C8: an existing credential file whose contents are only
whitespace (an empty file included) loads successfully as the empty
credential string; emptiness is not validated. -/
theorem load_api_key_whitespace (c : String) (fp : String)
    (hws : ∀ ch ∈ c.data, isPySpace ch) :
    load_api_key (.ok c) fp = .ok "" := by
  have h1 : c.data.dropWhile isPySpace = [] :=
    List.dropWhile_eq_nil_iff.2 (fun x hx => hws x hx)
  simp [load_api_key, pyStrip, pyStripList, h1]

/-- A concrete whitespace-only credential file loads as the empty string. -/
theorem load_api_key_whitespace_witness :
    load_api_key (.ok "  \n\t  ") "api_key.txt" = .ok "" :=
  load_api_key_whitespace "  \n\t  " "api_key.txt" (by decide)

/-- Claim C9: under the import-time fallback OpenAIError = Exception, every
exception raised during the analysis call — the zero-choice IndexError
included — is caught by the first handler and reported in the
service-error category, so the unexpected-error branch never fires. -/
theorem fallback_collapses_spec (e : PyExn) :
    analyzeCall true (.error e) =
      .apiError ("OpenAI API error: " ++ e.detail)
        ("❌ OpenAI API returned an error: " ++ e.detail) ∧
    analyzeCall true (.ok ⟨[]⟩) =
      .apiError "OpenAI API error: list index out of range"
        "❌ OpenAI API returned an error: list index out of range" := by
  cases e <;> exact ⟨rfl, rfl⟩

/-- Claim C3: with the OpenAI error family imported, a failure from that
family is classified as the service-error category with the remote detail
in both the logged and the surfaced message; any other exception is
classified as the unexpected category, also logged and surfaced with its
detail; the analysis performs exactly one remote call (no retry). -/
theorem error_classification_spec (d : String) (e : PyExn)
    (hother : ∀ d2, e ≠ .openAIError d2) :
    analyzeCall false (.error (.openAIError d)) =
      .apiError ("OpenAI API error: " ++ d)
        ("❌ OpenAI API returned an error: " ++ d) ∧
    analyzeCall false (.error e) =
      .unexpected ("Unexpected error: " ++ e.detail)
        ("❌ An unexpected error occurred: " ++ e.detail) ∧
    (∀ fallback header df pick questions callResult,
      (runAnalysis fallback header df pick questions callResult).remoteCalls
        = 1) := by
  refine ⟨rfl, ?_, fun _ _ _ _ _ _ => rfl⟩
  cases e with
  | openAIError d2 => exact absurd rfl (hother d2)
  | indexError d2 => rfl
  | otherError d2 => rfl

/-- The classification at a concrete service error and a concrete other
exception. -/
theorem error_classification_spec_witness :
    analyzeCall false (.error (.openAIError "rate limited")) =
      .apiError ("OpenAI API error: " ++ "rate limited")
        ("❌ OpenAI API returned an error: " ++ "rate limited") ∧
    analyzeCall false (.error (.otherError "shape mismatch")) =
      .unexpected ("Unexpected error: " ++ (PyExn.otherError "shape mismatch").detail)
        ("❌ An unexpected error occurred: " ++
          (PyExn.otherError "shape mismatch").detail) ∧
    (∀ fallback header df pick questions callResult,
      (runAnalysis fallback header df pick questions callResult).remoteCalls
        = 1) :=
  error_classification_spec "rate limited" (.otherError "shape mismatch")
    (by simp)

/-- Claim C4: a remote response with zero choices never yields findings;
the first-choice extraction raises, and the zero-choice failure is
surfaced through the error handlers (in the unexpected-error category when
the error family was imported). -/
theorem empty_response_spec (fallback : Bool) :
    (analyzeCall fallback (.ok ⟨[]⟩)).findingsText = none ∧
    analyzeCall false (.ok ⟨[]⟩) =
      .unexpected "Unexpected error: list index out of range"
        "❌ An unexpected error occurred: list index out of range" := by
  cases fallback <;> exact ⟨rfl, rfl⟩

/-- Claim C6: the request body carries exactly one system-role message
("You are a helpful assistant.") and one user-role message holding the
prompt, and a response with at least one choice succeeds with the first
content of the first choice stripped of surrounding whitespace. -/
theorem complete_success_spec (prompt : String) (fallback : Bool)
    (c : Choice) (rest : List Choice) :
    (chatMessages prompt).length = 2 ∧
    ((chatMessages prompt).filter (fun m => m.role == "system")) =
      [{ role := "system", content := "You are a helpful assistant." }] ∧
    ((chatMessages prompt).filter (fun m => m.role == "user")) =
      [{ role := "user", content := prompt }] ∧
    analyzeCall fallback (.ok ⟨c :: rest⟩) =
      .findings (pyStrip c.message.content) := by
  refine ⟨rfl, ?_, ?_, rfl⟩ <;> rfl

theorem containsInOrder_prepend (g s : List Char) (ps : List (List Char))
    (h : containsInOrder s ps) : containsInOrder (g ++ s) ps := by
  cases ps with
  | nil => trivial
  | cons p ps =>
    obtain ⟨pre, post, heq, hrest⟩ := h
    exact ⟨g ++ pre, post, by rw [heq]; simp [List.append_assoc], hrest⟩

theorem containsInOrder_cons (p s : List Char) (ps : List (List Char))
    (h : containsInOrder s ps) : containsInOrder (p ++ s) (p :: ps) :=
  ⟨[], s, by simp, h⟩

theorem containsInOrder_records (rs : List (List (List Char))) (s : List Char)
    (ps : List (List Char)) (h : containsInOrder s ps) :
    containsInOrder (csvRecords rs ++ s) (rs.map csvFields ++ ps) := by
  induction rs with
  | nil => simpa [csvRecords] using h
  | cons r rs ih =>
    have h2 := containsInOrder_prepend ['\n'] _ _ ih
    have h3 := containsInOrder_cons (csvFields r) _ _ h2
    simpa [csvRecords, List.append_assoc] using h3

/-- Claim C2: the prompt contains, as substrings in this relative order:
the constant instruction preamble, the "Data:" label, the serialized header
line, one serialized line per sampled row (in table order), the
"Questions:" label, the questions text verbatim, and the constant
"Findings:" trailer. -/
theorem buildPrompt_spec (header : List String) (rows : List Row)
    (questions : String) :
    containsInOrder (buildPrompt header rows questions).data
      (promptPreamble.data :: "Data:".data ::
        (((header :: rows).map (fun r => csvFields (r.map String.data))) ++
          ["Questions:".data, questions.data, "Findings:".data])) := by
  have step5 : containsInOrder "Findings:".data ["Findings:".data] :=
    ⟨[], [], by simp, trivial⟩
  have step4 := containsInOrder_prepend "\n\n".data _ _ step5
  have step3 := containsInOrder_cons questions.data _ _ step4
  have step2 := containsInOrder_prepend ['\n'] _ _ step3
  have step1 := containsInOrder_cons "Questions:".data _ _ step2
  have step0 := containsInOrder_prepend "\n\n".data _ _ step1
  have recs := containsInOrder_records
    ((header :: rows).map (fun r => r.map String.data)) _ _ step0
  have d2 := containsInOrder_prepend ['\n'] _ _ recs
  have d1 := containsInOrder_cons "Data:".data _ _ d2
  have top := containsInOrder_cons promptPreamble.data _ _ d1
  have hdata : (buildPrompt header rows questions).data =
      promptPreamble.data ++ ("Data:".data ++ ('\n' ::
        (csvRecords ((header :: rows).map (fun r => r.map String.data)) ++
          ("\n\n".data ++ ("Questions:".data ++ ('\n' :: (questions.data ++
            ("\n\n".data ++ "Findings:".data)))))))) := by
    simp only [buildPrompt, csvString, String.data_append, List.append_assoc]
    rfl
  rw [hdata]
  simpa [List.map_map, Function.comp] using top

theorem parseCsvAux_bare_comma (cs acc : List Char) (rec : List (List Char)) :
    parseCsvAux .bare (',' :: cs) acc rec =
      parseCsvAux .bare cs [] (rec ++ [acc]) := by
  simp [parseCsvAux]

theorem parseCsvAux_bare_newline (cs acc : List Char) (rec : List (List Char)) :
    parseCsvAux .bare ('\n' :: cs) acc rec =
      (rec ++ [acc]) :: parseCsvAux .bare cs [] [] := by
  simp [parseCsvAux]

theorem parseCsvAux_bare_quote_start (cs : List Char) (rec : List (List Char)) :
    parseCsvAux .bare ('"' :: cs) [] rec = parseCsvAux .quoted cs [] rec := by
  simp [parseCsvAux]

theorem parseCsvAux_bare_plain (c : Char) (hc1 : c ≠ ',') (hc2 : c ≠ '\n')
    (hc3 : c ≠ '"') (cs acc : List Char) (rec : List (List Char)) :
    parseCsvAux .bare (c :: cs) acc rec =
      parseCsvAux .bare cs (acc ++ [c]) rec := by
  simp [parseCsvAux, hc1, hc2, hc3]

theorem parseCsvAux_quoted_quote (cs acc : List Char) (rec : List (List Char)) :
    parseCsvAux .quoted ('"' :: cs) acc rec =
      parseCsvAux .afterQuote cs acc rec := by
  simp [parseCsvAux]

theorem parseCsvAux_quoted_plain (c : Char) (hc : c ≠ '"') (cs acc : List Char)
    (rec : List (List Char)) :
    parseCsvAux .quoted (c :: cs) acc rec =
      parseCsvAux .quoted cs (acc ++ [c]) rec := by
  simp [parseCsvAux, hc]

theorem parseCsvAux_afterQuote_quote (cs acc : List Char)
    (rec : List (List Char)) :
    parseCsvAux .afterQuote ('"' :: cs) acc rec =
      parseCsvAux .quoted cs (acc ++ ['"']) rec := by
  simp [parseCsvAux]

theorem parseCsvAux_afterQuote_other (cs acc : List Char)
    (rec : List (List Char)) (h : cs.head? ≠ some '"') :
    parseCsvAux .afterQuote cs acc rec = parseCsvAux .bare cs acc rec := by
  cases cs with
  | nil => simp [parseCsvAux]
  | cons c cs =>
    have hc : c ≠ '"' := by simpa using h
    simp [parseCsvAux, hc]

theorem csvNeedsQuote_eq_false_iff (f : List Char) :
    csvNeedsQuote f = false ↔ ∀ c ∈ f, c ≠ ',' ∧ c ≠ '"' ∧ c ≠ '\n' := by
  simp [csvNeedsQuote, not_or, and_assoc]

theorem parseCsvAux_bare_passthrough (f : List Char)
    (hf : ∀ c ∈ f, c ≠ ',' ∧ c ≠ '"' ∧ c ≠ '\n') (cs acc : List Char)
    (rec : List (List Char)) :
    parseCsvAux .bare (f ++ cs) acc rec = parseCsvAux .bare cs (acc ++ f) rec := by
  induction f generalizing acc with
  | nil => simp
  | cons c f ih =>
    obtain ⟨hc1, hc2, hc3⟩ := hf c (List.mem_cons_self c f)
    rw [List.cons_append, parseCsvAux_bare_plain c hc1 hc3 hc2 _ acc rec,
        ih (fun x hx => hf x (List.mem_cons_of_mem _ hx)) (acc ++ [c])]
    simp

theorem parseCsvAux_quoted_content (f : List Char) (cs acc : List Char)
    (rec : List (List Char)) (hcs : cs.head? ≠ some '"') :
    parseCsvAux .quoted (csvDoubleQuotes f ++ '"' :: cs) acc rec =
      parseCsvAux .bare cs (acc ++ f) rec := by
  induction f generalizing acc with
  | nil =>
    rw [show csvDoubleQuotes [] = [] from rfl, List.nil_append,
        parseCsvAux_quoted_quote, parseCsvAux_afterQuote_other cs acc rec hcs]
    simp
  | cons c f ih =>
    by_cases hc : c = '"'
    · subst hc
      rw [show csvDoubleQuotes ('"' :: f) = '"' :: '"' :: csvDoubleQuotes f by
            simp [csvDoubleQuotes],
          List.cons_append, List.cons_append, parseCsvAux_quoted_quote,
          parseCsvAux_afterQuote_quote, ih (acc ++ ['"'])]
      simp
    · rw [show csvDoubleQuotes (c :: f) = c :: csvDoubleQuotes f by
            simp [csvDoubleQuotes, hc],
          List.cons_append, parseCsvAux_quoted_plain c hc, ih (acc ++ [c])]
      simp

theorem parseCsvAux_field (f : List Char) (cs : List Char)
    (rec : List (List Char)) (hcs : cs.head? ≠ some '"') :
    parseCsvAux .bare (csvEscapeField f ++ cs) [] rec =
      parseCsvAux .bare cs f rec := by
  by_cases hq : csvNeedsQuote f
  · rw [csvEscapeField, if_pos hq]
    rw [show ('"' :: (csvDoubleQuotes f ++ ['"'])) ++ cs =
          '"' :: (csvDoubleQuotes f ++ '"' :: cs) by simp]
    rw [parseCsvAux_bare_quote_start, parseCsvAux_quoted_content f cs [] rec hcs]
    simp
  · rw [csvEscapeField, if_neg hq]
    have h2 := parseCsvAux_bare_passthrough f
      ((csvNeedsQuote_eq_false_iff f).1 (by simpa using hq)) cs [] rec
    simpa using h2

theorem parseCsvAux_record (f : List Char) (fs : List (List Char))
    (cs : List Char) (rec : List (List Char)) :
    parseCsvAux .bare (csvFields (f :: fs) ++ '\n' :: cs) [] rec =
      (rec ++ f :: fs) :: parseCsvAux .bare cs [] [] := by
  induction fs generalizing f rec with
  | nil =>
    rw [show csvFields [f] = csvEscapeField f from rfl,
        parseCsvAux_field f ('\n' :: cs) rec (by simp),
        parseCsvAux_bare_newline]
  | cons f2 fs ih =>
    rw [show csvFields (f :: f2 :: fs) =
          csvEscapeField f ++ ',' :: csvFields (f2 :: fs) from rfl]
    rw [show (csvEscapeField f ++ ',' :: csvFields (f2 :: fs)) ++ '\n' :: cs =
          csvEscapeField f ++ ',' :: (csvFields (f2 :: fs) ++ '\n' :: cs) by
        simp]
    rw [parseCsvAux_field f _ rec (by simp), parseCsvAux_bare_comma,
        ih f2 (rec ++ [f])]
    simp

theorem parseCsvAux_records (rs : List (List (List Char)))
    (h : ∀ r ∈ rs, r ≠ []) :
    parseCsvAux .bare (csvRecords rs) [] [] = rs := by
  induction rs with
  | nil => simp [csvRecords, parseCsvAux]
  | cons r rs ih =>
    obtain ⟨f, fs, rfl⟩ : ∃ f fs, r = f :: fs := by
      cases r with
      | nil => exact absurd rfl (h [] (List.mem_cons_self _ _))
      | cons f fs => exact ⟨f, fs, rfl⟩
    simp only [csvRecords]
    rw [parseCsvAux_record,
        ih (fun r2 hr2 => h r2 (List.mem_cons_of_mem _ hr2))]
    simp

theorem string_mk_data (s : String) : String.mk s.data = s := rfl

/-- Claim C7: serializing a table (with at least one column, each row with
at least one cell) to delimited text and re-parsing that text yields
exactly the original cell values — the escaping of delimiters, quote
characters and newlines is a lossless round trip. -/
theorem csv_roundtrip (header : List String) (rows : List Row)
    (hh : header ≠ []) (hr : ∀ r ∈ rows, r ≠ []) :
    parseCsvString (csvString header rows) = header :: rows := by
  have hne : ∀ r ∈ (header :: rows).map (fun r => r.map String.data),
      r ≠ [] := by
    intro r hrm
    obtain ⟨r0, hr0, rfl⟩ := List.mem_map.1 hrm
    have hr0ne : r0 ≠ [] := by
      rcases List.mem_cons.1 hr0 with h1 | h2
      · subst h1; exact hh
      · exact hr r0 h2
    simpa using hr0ne
  simp only [parseCsvString, csvString]
  rw [parseCsvAux_records _ hne]
  simp [List.map_map, Function.comp_def, string_mk_data]

/-- The round trip at a concrete table whose cells contain the delimiter, a
quote character, a newline, and an empty value. -/
theorem csv_roundtrip_witness :
    (["a,b", "c\"d"] : List String) ≠ [] ∧
    (∀ r ∈ ([["x\ny", ""]] : List Row), r ≠ []) ∧
    parseCsvString (csvString ["a,b", "c\"d"] [["x\ny", ""]]) =
      [["a,b", "c\"d"], ["x\ny", ""]] :=
  ⟨by decide, by decide, csv_roundtrip ["a,b", "c\"d"] [["x\ny", ""]]
    (by decide) (by decide)⟩
